import Mathlib

/-!
Shallow embedding of the marketplace connection and publishing subsystem of
the Ai-Vision repository, together with the image-uploader validation, the
listing-generation client and the listing-generation HTTP handler, and
theorems settling the specification claims about them.

Sources embedded:
- services/geminiService.ts: generateEbayListing (response validation).
- components/ImageUploader.tsx: processFiles (file count/size/type gating).
- App.tsx: handleEbayCallback, handleEbayDisconnect, handlePostToEbay.
- api/generateListing.ts: handler (method and imageParts gating).
The eBay service itself (services/ebayService.ts: exchangeCodeForToken,
postListingToEbay, disconnectFromEbay, ...) is not part of the provided
sources; where a claim depends on it, its behaviour is modelled from the
specification and each such definition says so in its doc comment.
-/

namespace AiVision

/-- Truthiness-aware model of a JavaScript field value as seen by the
validation code: `absent` covers a missing, undefined or null field,
`nonArray t` is any non-array value with JS truthiness `t` (for a string
field, `t` is false exactly for the empty string), and `arrayOf xs` is an
array value (arrays are always truthy in JS). -/
inductive JsField (α : Type) : Type
  | absent : JsField α
  | nonArray (truthy : Bool) : JsField α
  | arrayOf (elems : List α) : JsField α
deriving DecidableEq

/-- JS truthiness of a field value. -/
def JsField.truthy {α : Type} : JsField α → Bool
  | .absent => false
  | .nonArray t => t
  | .arrayOf _ => true

/-- JS Array.isArray on a field value. -/
def JsField.isArr {α : Type} : JsField α → Bool
  | .arrayOf _ => true
  | _ => false

/-- JS check that the field is an array of length 0. -/
def JsField.lenZero {α : Type} : JsField α → Bool
  | .arrayOf [] => true
  | _ => false

/-- Model of JS String.prototype.startsWith, written over character lists so
that it evaluates inside the kernel. -/
def jsStartsWith (s p : String) : Bool :=
  p.toList.isPrefixOf s.toList

/-- One name/value item specific, as in types.ts. -/
structure ItemSpecific : Type where
  name : String
  value : String
deriving DecidableEq

/-- The JSON body returned by the listing backend, before validation, with
each field modelled as a JS value (services/geminiService.ts line 30). -/
structure ListingData : Type where
  title : JsField String
  category : JsField String
  itemSpecifics : JsField ItemSpecific
  description : JsField String
deriving DecidableEq

/-- The validation condition of services/geminiService.ts line 33, verbatim:
`!listingData.title || !listingData.category ||
!Array.isArray(listingData.category) || listingData.category.length === 0 ||
!listingData.itemSpecifics || !listingData.description`. -/
def malformedCheck (d : ListingData) : Bool :=
  !d.title.truthy || !d.category.truthy || !d.category.isArr ||
    d.category.lenZero || !d.itemSpecifics.truthy || !d.description.truthy

/-- Outcome of the fetch to /api/generateListing as seen by
services/geminiService.ts: an ok response with a parsed JSON body, a non-ok
response with a parsed JSON error body (the field `errorData.error ||
errorData.details` already collapsed to its first truthy value), or a non-ok
response whose body is not JSON. -/
inductive FetchResult : Type
  | okJson (body : ListingData)
  | httpErrorJson (status : Nat) (errMsg : Option String)
  | httpErrorNoJson (status : Nat)
deriving DecidableEq

/-- services/geminiService.ts generateEbayListing, lines 8-45: the ok-response
body is validated by `malformedCheck` and either returned as is or rejected;
every thrown error is rewrapped by the outer catch as
`Failed to generate listing. Details: ...`. -/
def generateEbayListing : FetchResult → Except String ListingData
  | .okJson d =>
    if malformedCheck d then
      .error ("Failed to generate listing. Details: " ++
        "Received malformed data from the backend.")
    else
      .ok d
  | .httpErrorJson _ errMsg =>
    .error ("Failed to generate listing. Details: " ++
      errMsg.getD "Failed to generate listing from backend.")
  | .httpErrorNoJson _ =>
    .error ("Failed to generate listing. Details: " ++
      "The AI model is taking too long to respond, which can happen with " ++
      "complex items or during peak hours. Please try generating the " ++
      "listing again.")

/-- A browser File as used by components/ImageUploader.tsx: only the fields
the validation reads (`name`, `size`, `type`; the latter renamed `ftype`
because `type` is a Lean keyword). -/
structure JsFile : Type where
  name : String
  size : Nat
  ftype : String
deriving DecidableEq

/-- components/ImageUploader.tsx line 8. -/
def MAX_FILES : Nat := 8

/-- components/ImageUploader.tsx line 9. -/
def MAX_SIZE_MB : Nat := 5

/-- components/ImageUploader.tsx line 10. -/
def MAX_SIZE_BYTES : Nat := MAX_SIZE_MB * 1024 * 1024

/-- The uploader component state touched by processFiles. The `previews`
array of blob URLs mirrors `currentFiles` one to one and carries no extra
information, so it is not modelled. -/
structure UploaderState : Type where
  currentFiles : List JsFile
  uploadError : Option String
  selectedImageIndex : Nat
deriving DecidableEq

/-- Result of one processFiles run: the new component state plus the
argument passed to the onImagesChange callback (`none` when the callback was
not invoked, i.e. when the selection was null). -/
structure ProcessResult : Type where
  st : UploaderState
  emitted : Option (List JsFile)
deriving DecidableEq

/-- The per-file loop of components/ImageUploader.tsx lines 46-63: walk the
selection in order; the first file that is not an image type or is too large
aborts with that file's error message; otherwise every file is kept. -/
def scanFiles : List JsFile → Except String (List JsFile)
  | [] => .ok []
  | f :: rest =>
    if !(jsStartsWith f.ftype "image/") then
      .error ("File \"" ++ f.name ++ "\" is not a valid image type.")
    else if MAX_SIZE_BYTES < f.size then
      .error ("File \"" ++ f.name ++ "\" is too large (max " ++
        toString MAX_SIZE_MB ++ "MB).")
    else
      match scanFiles rest with
      | .error e => .error e
      | .ok fs => .ok (f :: fs)

/-- components/ImageUploader.tsx processFiles, lines 26-69: a null selection
is ignored; a selection with more than MAX_FILES entries, or containing a
non-image or oversized file, sets an error and clears the accepted files
(also notifying onImagesChange with the empty list); a fully valid selection
replaces the accepted files and resets the gallery index. -/
def processFiles (selected : Option (List JsFile)) (st : UploaderState) :
    ProcessResult :=
  match selected with
  | none => { st := st, emitted := none }
  | some filesArray =>
    if MAX_FILES < filesArray.length then
      { st := { currentFiles := [],
                uploadError := some ("You can only upload a maximum of " ++
                  toString MAX_FILES ++ " images."),
                selectedImageIndex := st.selectedImageIndex },
        emitted := some [] }
    else
      match scanFiles filesArray with
      | .error msg =>
        { st := { currentFiles := [],
                  uploadError := some msg,
                  selectedImageIndex := st.selectedImageIndex },
          emitted := some [] }
      | .ok valid =>
        { st := { currentFiles := valid,
                  uploadError := none,
                  selectedImageIndex := 0 },
          emitted := some valid }

/-- A token set as specified in the data model (section 3): access token,
refresh token, expiry timestamp and granted scopes. -/
structure TokenSet : Type where
  accessToken : String
  refreshToken : String
  expiresAt : Nat
  scope : List String
deriving DecidableEq

/-- Modelled from the spec: the server-side session state owned by the
missing services/ebayService.ts backend — the Token Store (single slot), the
outstanding authorization `state` nonce, and the authorization codes already
consumed by a successful exchange (the marketplace's single-use code
semantics, section 4.1). -/
structure EbaySession : Type where
  tokenStore : Option TokenSet
  nonce : Option String
  usedCodes : List String
deriving DecidableEq

/-- Modelled from the spec: the missing checkEbayConnection / isConnected
predicate (section 4.2) — true iff the Token Store holds a TokenSet, with no
network call. -/
def isConnected (s : EbaySession) : Bool :=
  s.tokenStore.isSome

/-- Raw image payload handed to publish: mime type plus size in bytes
(section 3, ImageAsset; the byte content itself plays no role in any
claim). -/
structure ImageAsset : Type where
  mime : String
  size : Nat
deriving DecidableEq

/-- The typed listing produced by the generation collaborator (types.ts
EbayListing as consumed by App.tsx). -/
structure EbayListing : Type where
  title : String
  category : List String
  itemSpecifics : List ItemSpecific
  description : String
deriving DecidableEq

/-- Oracle for the external marketplace endpoints (section 6): code
exchange, token refresh, media upload, offer creation and activation. Each
is a pure function so a concrete marketplace can be evaluated in proofs. -/
structure Marketplace : Type where
  exchangeCode : String → Option TokenSet
  refreshWith : String → Option TokenSet
  uploadImage : String → ImageAsset → Option String
  createOffer : String → EbayListing → List String → Except String String
  activateOffer : String → String → Except String String

/-- Error taxonomy of the authorization flow (section 7). -/
inductive EbayAuthError : Type
  | InvalidState
  | ExchangeFailed
deriving DecidableEq

/-- Modelled from the spec: beginAuthorization (section 4.1) — record a
fresh `state` nonce for the session and return the authorization redirect
URL parameterized with it. -/
def beginAuthorization (s : EbaySession) (freshNonce : String) :
    String × EbaySession :=
  ("https://auth.ebay.com/oauth2/authorize?state=" ++ freshNonce,
    { s with nonce := some freshNonce })

/-- Modelled from the spec: completeAuthorization (section 4.1) — fail with
InvalidState when the supplied state does not match the outstanding nonce,
fail with ExchangeFailed when the marketplace rejects the code or the code
was already consumed, and otherwise store the obtained TokenSet and mark the
code used. -/
def completeAuthorization (m : Marketplace) (code stateParam : String)
    (s : EbaySession) : Except EbayAuthError TokenSet × EbaySession :=
  if s.nonce ≠ some stateParam then
    (.error .InvalidState, s)
  else if code ∈ s.usedCodes then
    (.error .ExchangeFailed, s)
  else
    match m.exchangeCode code with
    | none => (.error .ExchangeFailed, s)
    | some ts =>
      (.ok ts, { s with tokenStore := some ts, usedCodes := code :: s.usedCodes })

/-- Modelled from the spec: the backend behind the missing
services/ebayService.ts exchangeCodeForToken. Its interface — fixed by the
caller in App.tsx line 51 — receives only the authorization code, so no
state value crosses this boundary; it performs the token-endpoint exchange,
stores the TokenSet on success and respects single-use code semantics. -/
def exchangeCodeForToken (m : Marketplace) (code : String) (s : EbaySession) :
    Except String TokenSet × EbaySession :=
  if code ∈ s.usedCodes then
    (.error "ExchangeFailed", s)
  else
    match m.exchangeCode code with
    | none => (.error "ExchangeFailed", s)
    | some ts =>
      (.ok ts, { s with tokenStore := some ts, usedCodes := code :: s.usedCodes })

/-- The App.tsx component state touched by the connection handlers. -/
structure AppState : Type where
  isEbayConnected : Bool
  isConnecting : Bool
  error : Option String
deriving DecidableEq

/-- URLSearchParams.get over the callback query string. -/
def getParam (search : List (String × String)) (key : String) :
    Option String :=
  (search.find? (fun p => p.1 == key)).map (fun p => p.2)

/-- App.tsx handleEbayCallback, lines 44-65: read the `code` query
parameter; when present, call exchangeCodeForToken with it — and with it
alone — marking the app connected on success and recording an error message
on failure (isConnecting ends false either way). No other query parameter is
read. -/
def handleEbayCallback (m : Marketplace) (search : List (String × String))
    (s : EbaySession) (app : AppState) : EbaySession × AppState :=
  match getParam search "code" with
  | none => (s, app)
  | some code =>
    match exchangeCodeForToken m code s with
    | (.ok _, s1) =>
      (s1, { app with isEbayConnected := true, isConnecting := false })
    | (.error _, s1) =>
      (s1, { app with
              error := some "Failed to connect your eBay account. Please try again.",
              isConnecting := false })

/-- Modelled from the spec: the missing services/ebayService.ts
disconnectFromEbay (section 4.3) — clear the Token Store unconditionally,
with no failure path for local state. -/
def disconnectFromEbay (s : EbaySession) : EbaySession :=
  { s with tokenStore := none }

/-- App.tsx handleEbayDisconnect, lines 116-119: await disconnectFromEbay,
then mark the app disconnected. -/
def handleEbayDisconnect (s : EbaySession) (app : AppState) :
    EbaySession × AppState :=
  (disconnectFromEbay s, { app with isEbayConnected := false })

/-- Error taxonomy of the publish workflow (section 7). -/
inductive PubError : Type
  | NotConnected
  | InvalidInput
  | MediaUploadFailed
  | ListingRejected (msg : String)
deriving DecidableEq

/-- Modelled from the spec: the count/size/type re-validation the Publish
Orchestrator performs before spending a network round trip (sections 3 and
4.4): a non-empty sequence of at most MAX_FILES images, each at most
MAX_SIZE_BYTES and of an image mime type. -/
def validImages (images : List ImageAsset) : Bool :=
  !images.isEmpty && images.length ≤ MAX_FILES &&
    images.all (fun i => i.size ≤ MAX_SIZE_BYTES && jsStartsWith i.mime "image/")

/-- Step 1 of the publish protocol: upload the images in order, collecting
one reference URL per image; a failed upload aborts immediately. The second
component counts the upload attempts actually issued. -/
def uploadAll (up : ImageAsset → Option String) :
    List ImageAsset → Except Unit (List String) × Nat
  | [] => (.ok [], 0)
  | img :: rest =>
    match up img with
    | none => (.error (), 1)
    | some url =>
      match uploadAll up rest with
      | (.ok urls, n) => (.ok (url :: urls), n + 1)
      | (.error e, n) => (.error e, n + 1)

/-- Steps 1-4 of the publish protocol (section 4.4) with a usable access
token in hand: media upload, then offer creation from the draft, then
activation; a marketplace rejection at creation or activation surfaces its
detail message as ListingRejected, and success yields the public item URL.
The Nat component counts media upload attempts. -/
def runPublishSteps (m : Marketplace) (tok : String) (listing : EbayListing)
    (images : List ImageAsset) (s : EbaySession) :
    Except PubError String × EbaySession × Nat :=
  match uploadAll (m.uploadImage tok) images with
  | (.error _, n) => (.error .MediaUploadFailed, s, n)
  | (.ok urls, n) =>
    match m.createOffer tok listing urls with
    | .error msg => (.error (.ListingRejected msg), s, n)
    | .ok offerId =>
      match m.activateOffer tok offerId with
      | .error msg => (.error (.ListingRejected msg), s, n)
      | .ok itemId => (.ok ("https://www.ebay.com/itm/" ++ itemId), s, n)

/-- Modelled from the spec: the missing services/ebayService.ts
postListingToEbay / publish orchestrator (section 4.4). Fail fast with
NotConnected when the Token Store is empty and with InvalidInput when the
image bounds are violated, both before any network call; when the access
token has expired, refresh once — a failed refresh clears the Token Store
and fails the whole publish with NotConnected, a successful refresh
atomically replaces the stored TokenSet before the steps run. -/
def postListingToEbay (m : Marketplace) (now : Nat) (listing : EbayListing)
    (images : List ImageAsset) (s : EbaySession) :
    Except PubError String × EbaySession × Nat :=
  match s.tokenStore with
  | none => (.error .NotConnected, s, 0)
  | some ts =>
    if !(validImages images) then
      (.error .InvalidInput, s, 0)
    else if ts.expiresAt ≤ now then
      match m.refreshWith ts.refreshToken with
      | none => (.error .NotConnected, { s with tokenStore := none }, 0)
      | some ts1 =>
        runPublishSteps m ts1.accessToken listing images
          { s with tokenStore := some ts1 }
    else
      runPublishSteps m ts.accessToken listing images s

/-- The resolved value of postListingToEbay as App.tsx sees it (the
PublishResult of section 3): a success flag, the item URL present on
success, and the failure reason present on failure. -/
structure PublishResultJs : Type where
  success : Bool
  itemUrl : Option String
  failureReason : Option String
deriving DecidableEq

/-- How the postListingToEbay promise settles, from the caller's point of
view: it resolves with a PublishResult, it rejects with an Error carrying a
message, or it rejects with a non-Error value. -/
inductive PostOutcome : Type
  | resolves (r : PublishResultJs)
  | rejectsWith (msg : String)
  | rejectsNonError
deriving DecidableEq

/-- The postStatus state of App.tsx line 21. -/
structure PostStatus : Type where
  loading : Bool
  error : Option String
  success : Option String
deriving DecidableEq

/-- JS template-string rendering of a possibly undefined value. -/
def jsShow : Option String → String
  | some s => s
  | none => "undefined"

/-- App.tsx handlePostToEbay, lines 121-134: with no listing the handler
returns at once; a resolved result with success true produces the success
message with the item URL; a resolved result with success false is turned
into a thrown Error with the fixed text
`Posting failed for an unknown reason.` which the catch then reports,
discarding the result's failureReason; a rejection with an Error reports
that Error's message, and any other rejection reports
`Failed to post to eBay.`. -/
def handlePostToEbay (outcome : PostOutcome) (listing : Option EbayListing)
    (st : PostStatus) : PostStatus :=
  match listing with
  | none => st
  | some _ =>
    match outcome with
    | .resolves r =>
      if r.success then
        { loading := false, error := none,
          success := some ("Successfully posted! View your listing: " ++
            jsShow r.itemUrl) }
      else
        { loading := false,
          error := some "Posting failed for an unknown reason.",
          success := none }
    | .rejectsWith msg =>
      { loading := false, error := some msg, success := none }
    | .rejectsNonError =>
      { loading := false, error := some "Failed to post to eBay.",
        success := none }

/-- One inline image part of the generation request body. -/
structure ImagePart : Type where
  mimeType : String
  data : String
deriving DecidableEq

/-- The request seen by api/generateListing.ts: the HTTP method and the
destructured body fields (imageParts as a JS value, since the handler
checks its truthiness, array-ness and length). -/
structure ApiRequest : Type where
  method : String
  imageParts : JsField ImagePart
  personalNote : Option String
  isHighQuality : Bool
deriving DecidableEq

/-- Whether the Gemini call (and the subsequent parse of its text) succeeds
or throws; either way the model was invoked. -/
inductive AiOutcome : Type
  | returnsJson
  | throwsError
deriving DecidableEq

/-- What the handler responded with and whether the AI model was invoked. -/
structure HandlerResult : Type where
  status : Nat
  aiInvoked : Bool
deriving DecidableEq

/-- api/generateListing.ts handler, lines 28-91: a non-POST method is
answered 405 before anything else; a falsy, non-array or empty imageParts
field is answered 400; only then is the model invoked, answering 200 on
success and 500 when the call or the parse of its output throws. -/
def handler (ai : AiOutcome) (req : ApiRequest) : HandlerResult :=
  if req.method ≠ "POST" then
    { status := 405, aiInvoked := false }
  else if !req.imageParts.truthy || !req.imageParts.isArr ||
      req.imageParts.lenZero then
    { status := 400, aiInvoked := false }
  else
    match ai with
    | .returnsJson => { status := 200, aiInvoked := true }
    | .throwsError => { status := 500, aiInvoked := true }

/-- A concrete token set for evaluating the model on closed inputs. -/
def demoToken : TokenSet :=
  { accessToken := "access-1", refreshToken := "refresh-1",
    expiresAt := 1000, scope := ["sell.inventory"] }

/-- The token set demoToken is replaced with on a successful refresh. -/
def refreshedToken : TokenSet :=
  { accessToken := "access-2", refreshToken := "refresh-1",
    expiresAt := 5000, scope := ["sell.inventory"] }

/-- A concrete marketplace that accepts the code c123, honours the
refresh-1 refresh token, and lets every publish step succeed. -/
def demoMarket : Marketplace where
  exchangeCode := fun c => if c == "c123" then some demoToken else none
  refreshWith := fun r => if r == "refresh-1" then some refreshedToken else none
  uploadImage := fun _ img => some ("https://media.ebay.com/" ++ img.mime)
  createOffer := fun _ _ _ => .ok "offer-1"
  activateOffer := fun _ _ => .ok "123456"

/-- A concrete marketplace on which every call fails; in particular every
refresh token is treated as revoked. -/
def deadMarket : Marketplace where
  exchangeCode := fun _ => none
  refreshWith := fun _ => none
  uploadImage := fun _ _ => none
  createOffer := fun _ _ _ => .error "dead"
  activateOffer := fun _ _ => .error "dead"

/-- A session with nothing stored yet. -/
def emptySession : EbaySession :=
  { tokenStore := none, nonce := none, usedCodes := [] }

/-- A connected session holding demoToken. -/
def connectedSession : EbaySession :=
  { tokenStore := some demoToken, nonce := none, usedCodes := [] }

/-- The App.tsx state while the callback page is loading. -/
def freshApp : AppState :=
  { isEbayConnected := false, isConnecting := true, error := none }

/-- A concrete generated listing. -/
def demoListing : EbayListing :=
  { title := "Vintage Camera", category := ["Cameras"],
    itemSpecifics := [{ name := "Brand", value := "Acme" }],
    description := "Works great" }

/-- A concrete in-bounds image asset. -/
def demoImage : ImageAsset :=
  { mime := "image/jpeg", size := 2048 }

/-- The initial postStatus of App.tsx line 21. -/
def initialPostStatus : PostStatus :=
  { loading := false, error := none, success := none }

/-- A resolved publish result that failed with a specific reason. -/
def rejectedResult : PublishResultJs :=
  { success := false, itemUrl := none,
    failureReason := some "ListingRejected: required item specific Brand is missing" }

/-- A backend response body whose title field is missing. -/
def noTitleData : ListingData :=
  { title := .absent, category := .arrayOf ["Cameras"],
    itemSpecifics := .arrayOf [{ name := "Brand", value := "Acme" }],
    description := .nonArray true }

/-- A concrete valid image file. -/
def goodFile : JsFile :=
  { name := "front.jpg", size := 1024, ftype := "image/jpeg" }

/-- A concrete 6 MiB file, over the 5 MB bound. -/
def hugeFile : JsFile :=
  { name := "huge.jpg", size := 6291456, ftype := "image/jpeg" }

/-- A concrete non-image file. -/
def textFile : JsFile :=
  { name := "notes.txt", size := 10, ftype := "text/plain" }

/-- The uploader state before any selection. -/
def freshUploader : UploaderState :=
  { currentFiles := [], uploadError := none, selectedImageIndex := 0 }

/-- An uploader state with a previously accepted selection. -/
def loadedUploader : UploaderState :=
  { currentFiles := [goodFile], uploadError := none, selectedImageIndex := 0 }

/-- A POST request with one image part. -/
def postRequest : ApiRequest :=
  { method := "POST",
    imageParts := .arrayOf [{ mimeType := "image/jpeg", data := "Zm9v" }],
    personalNote := none, isHighQuality := false }

/-- A successful scan returns the very files that were offered, and every
one of them is within the size bound and of an image type. -/
theorem scanFiles_ok (files v : List JsFile) (h : scanFiles files = .ok v) :
    v = files ∧
      ∀ f ∈ files, f.size ≤ MAX_SIZE_BYTES ∧ jsStartsWith f.ftype "image/" = true := by
  induction files generalizing v with
  | nil =>
    simp [scanFiles] at h
    simp [h]
  | cons f rest ih =>
    by_cases himg : jsStartsWith f.ftype "image/"
    · by_cases hsize : MAX_SIZE_BYTES < f.size
      · simp [scanFiles, himg, hsize] at h
      · rcases hrest : scanFiles rest with e | fs
        · simp [scanFiles, himg, hsize, hrest] at h
        · simp [scanFiles, himg, hsize, hrest] at h
          rcases ih fs hrest with ⟨hfs, hall⟩
          subst hfs
          refine ⟨h.symm, ?_⟩
          intro g hg
          rcases List.mem_cons.mp hg with hgf | hgr
          · subst hgf
            exact ⟨Nat.le_of_not_lt hsize, himg⟩
          · exact hall g hgr
    · simp [scanFiles, himg] at h

/-- A selection containing an oversized or non-image file makes the scan
fail with some message. -/
theorem scanFiles_bad (files : List JsFile)
    (h : ∃ f ∈ files, MAX_SIZE_BYTES < f.size ∨ jsStartsWith f.ftype "image/" = false) :
    ∃ e, scanFiles files = .error e := by
  induction files with
  | nil => simp at h
  | cons f rest ih =>
    by_cases himg : jsStartsWith f.ftype "image/"
    · by_cases hsize : MAX_SIZE_BYTES < f.size
      · exact ⟨"File \"" ++ f.name ++ "\" is too large (max " ++
          toString MAX_SIZE_MB ++ "MB).", by simp [scanFiles, himg, hsize]⟩
      · have hrest : ∃ g ∈ rest, MAX_SIZE_BYTES < g.size ∨ jsStartsWith g.ftype "image/" = false := by
          rcases h with ⟨g, hg, hbad⟩
          rcases List.mem_cons.mp hg with hgf | hgr
          · subst hgf
            rcases hbad with hb | hb
            · exact absurd hb hsize
            · rw [himg] at hb
              exact absurd hb (by simp)
          · exact ⟨g, hgr, hbad⟩
        rcases ih hrest with ⟨e, he⟩
        exact ⟨e, by simp [scanFiles, himg, hsize, he]⟩
    · exact ⟨"File \"" ++ f.name ++ "\" is not a valid image type.",
        by simp [scanFiles, himg]⟩

/-- Processing a selection that violates the count bound or contains an
invalid file sets an error message, empties the accepted file list and
notifies onImagesChange with the empty list — whatever was accepted before
is gone. -/
theorem processFiles_invalid (files : List JsFile) (st : UploaderState)
    (hbad : MAX_FILES < files.length ∨
      ∃ f ∈ files, MAX_SIZE_BYTES < f.size ∨ jsStartsWith f.ftype "image/" = false) :
    (∃ msg, (processFiles (some files) st).st.uploadError = some msg) ∧
      (processFiles (some files) st).st.currentFiles = [] ∧
      (processFiles (some files) st).emitted = some [] := by
  by_cases hlen : MAX_FILES < files.length
  · simp [processFiles, hlen]
  · rcases hbad with hb | hb
    · exact absurd hb hlen
    · rcases scanFiles_bad files hb with ⟨e, he⟩
      simp [processFiles, hlen, he]

/-- Processing a selection that ends with no error message means every
bound held, and the selection was accepted verbatim. -/
theorem processFiles_accepted (files : List JsFile) (st : UploaderState)
    (hok : (processFiles (some files) st).st.uploadError = none) :
    files.length ≤ MAX_FILES ∧
      (∀ f ∈ files, f.size ≤ MAX_SIZE_BYTES ∧ jsStartsWith f.ftype "image/" = true) ∧
      (processFiles (some files) st).st.currentFiles = files ∧
      (processFiles (some files) st).emitted = some files := by
  by_cases hlen : MAX_FILES < files.length
  · simp [processFiles, hlen] at hok
  · rcases hscan : scanFiles files with e | v
    · simp [processFiles, hlen, hscan] at hok
    · rcases scanFiles_ok files v hscan with ⟨hv, hall⟩
      subst hv
      exact ⟨Nat.le_of_not_lt hlen, hall, by simp [processFiles, hlen, hscan],
        by simp [processFiles, hlen, hscan]⟩

/-- Claim C6: a file selection offered to the image uploader is accepted
only if it has at most MAX_FILES files, each at most MAX_SIZE_BYTES and of
an image mime type; any selection over the count bound or containing an
oversized or non-image file is rejected with an error message and yields no
accepted files. -/
theorem c6_uploader_bounds (files : List JsFile) (st : UploaderState) :
    ((processFiles (some files) st).st.uploadError = none →
      files.length ≤ MAX_FILES ∧
        (∀ f ∈ files, f.size ≤ MAX_SIZE_BYTES ∧ jsStartsWith f.ftype "image/" = true) ∧
        (processFiles (some files) st).st.currentFiles = files ∧
        (processFiles (some files) st).emitted = some files) ∧
    ((MAX_FILES < files.length ∨
        ∃ f ∈ files, MAX_SIZE_BYTES < f.size ∨ jsStartsWith f.ftype "image/" = false) →
      (∃ msg, (processFiles (some files) st).st.uploadError = some msg) ∧
        (processFiles (some files) st).st.currentFiles = [] ∧
        (processFiles (some files) st).emitted = some []) :=
  ⟨processFiles_accepted files st, processFiles_invalid files st⟩

/-- Witness for C6: a selection holding a single 6 MiB file is rejected
with an error message and no file is accepted. -/
theorem c6_uploader_bounds_witness :
    (∃ msg, (processFiles (some [hugeFile]) freshUploader).st.uploadError = some msg) ∧
      (processFiles (some [hugeFile]) freshUploader).st.currentFiles = [] ∧
      (processFiles (some [hugeFile]) freshUploader).emitted = some [] :=
  (c6_uploader_bounds [hugeFile] freshUploader).2
    (Or.inr ⟨hugeFile, by simp, Or.inl (by decide)⟩)

/-- Claim C9: uploader validation is all-or-nothing over a batch — when any
file of a newly offered selection is invalid (count bound exceeded,
oversized, or not an image), the previously accepted selection and the
valid files earlier in the same batch are discarded too: the accepted file
list becomes empty, whatever the prior state held. -/
theorem c9_all_or_nothing (files : List JsFile) (st : UploaderState)
    (hbad : MAX_FILES < files.length ∨
      ∃ f ∈ files, MAX_SIZE_BYTES < f.size ∨ jsStartsWith f.ftype "image/" = false) :
    (processFiles (some files) st).st.currentFiles = [] ∧
      (processFiles (some files) st).emitted = some [] ∧
      ∃ msg, (processFiles (some files) st).st.uploadError = some msg := by
  rcases processFiles_invalid files st hbad with ⟨hmsg, hcur, hemit⟩
  exact ⟨hcur, hemit, hmsg⟩

/-- Witness for C9: a batch whose first file is valid and whose second is a
text file, offered while one file was already accepted, leaves the accepted
list empty. -/
theorem c9_all_or_nothing_witness :
    (processFiles (some [goodFile, textFile]) loadedUploader).st.currentFiles = [] ∧
      (processFiles (some [goodFile, textFile]) loadedUploader).emitted = some [] ∧
      ∃ msg, (processFiles (some [goodFile, textFile]) loadedUploader).st.uploadError = some msg :=
  c9_all_or_nothing [goodFile, textFile] loadedUploader
    (Or.inr ⟨textFile, by simp, Or.inr (by decide)⟩)

/-- Claim C5: generateEbayListing returns a listing body only when its
title is present, its category is a non-empty array, and its itemSpecifics
and description are present; a body missing any of these fields (or with an
empty category array) is rejected with an error and never returned to the
caller. -/
theorem c5_listing_validation (d : ListingData) :
    (∀ r, generateEbayListing (.okJson d) = .ok r →
      r = d ∧ d.title ≠ .absent ∧
        (∃ xs, d.category = .arrayOf xs ∧ xs ≠ []) ∧
        d.itemSpecifics ≠ .absent ∧ d.description ≠ .absent) ∧
    ((d.title = .absent ∨ d.category = .absent ∨
        d.category = .arrayOf ([] : List String) ∨
        d.itemSpecifics = .absent ∨ d.description = .absent) →
      ∃ e, generateEbayListing (.okJson d) = .error e) := by
  constructor
  · intro r h
    by_cases hm : malformedCheck d
    · simp [generateEbayListing, hm] at h
    · simp [generateEbayListing, hm] at h
      have hm2 : malformedCheck d = false := by simpa using hm
      simp only [malformedCheck, Bool.or_eq_false_iff, Bool.not_eq_false'] at hm2
      obtain ⟨⟨⟨⟨⟨htitle, hcat⟩, harr⟩, hlen⟩, hspec⟩, hdesc⟩ := hm2
      refine ⟨h.symm, ?_, ?_, ?_, ?_⟩
      · intro habs
        rw [habs] at htitle
        simp [JsField.truthy] at htitle
      · cases hc : d.category with
        | absent => rw [hc] at harr; simp [JsField.isArr] at harr
        | nonArray t => rw [hc] at harr; simp [JsField.isArr] at harr
        | arrayOf xs =>
          refine ⟨xs, rfl, ?_⟩
          intro hnil
          rw [hc, hnil] at hlen
          simp [JsField.lenZero] at hlen
      · intro habs
        rw [habs] at hspec
        simp [JsField.truthy] at hspec
      · intro habs
        rw [habs] at hdesc
        simp [JsField.truthy] at hdesc
  · intro hbad
    have hm : malformedCheck d = true := by
      rcases hbad with h | h | h | h | h <;>
        simp [malformedCheck, h, JsField.truthy, JsField.lenZero]
    exact ⟨"Failed to generate listing. Details: " ++
      "Received malformed data from the backend.",
      by simp [generateEbayListing, hm]⟩

/-- Witness for C5: a body with no title field is rejected with an
error. -/
theorem c5_listing_validation_witness :
    ∃ e, generateEbayListing (.okJson noTitleData) = .error e :=
  (c5_listing_validation noTitleData).2 (Or.inl rfl)

/-- Claim C10: the listing-generation handler answers 405 to any non-POST
request and 400 to any POST whose imageParts field is missing, not an
array, or an empty array — in every such case without invoking the AI
model. -/
theorem c10_handler_gates (ai : AiOutcome) (req : ApiRequest) :
    (req.method ≠ "POST" →
      handler ai req = { status := 405, aiInvoked := false }) ∧
    (req.method = "POST" →
      (req.imageParts = .absent ∨ req.imageParts.isArr = false ∨
        req.imageParts = .arrayOf ([] : List ImagePart)) →
      handler ai req = { status := 400, aiInvoked := false }) := by
  constructor
  · intro h
    simp [handler, h]
  · intro hpost hbad
    rcases hbad with h | h | h
    · simp [handler, hpost, h, JsField.truthy]
    · simp [handler, hpost, h]
    · simp [handler, hpost, h, JsField.truthy, JsField.isArr, JsField.lenZero]

/-- Witness for C10: a GET request is answered 405 and a POST with an empty
imageParts array is answered 400, the model untouched in both cases. -/
theorem c10_handler_gates_witness :
    handler .returnsJson { postRequest with method := "GET" } =
        { status := 405, aiInvoked := false } ∧
      handler .returnsJson { postRequest with imageParts := .arrayOf [] } =
        { status := 400, aiInvoked := false } :=
  ⟨(c10_handler_gates .returnsJson { postRequest with method := "GET" }).1
      (by decide),
    (c10_handler_gates .returnsJson { postRequest with imageParts := .arrayOf [] }).2
      rfl (Or.inr (Or.inr rfl))⟩

/-- Claim C8: disconnect is idempotent — from any starting state, after the
first disconnect isConnected is false, a second disconnect returns exactly
the same state (the operation is a total function, so the second call
completes without error), and isConnected is false after it as well. -/
theorem c8_disconnect_idempotent (s : EbaySession) (app : AppState) :
    isConnected (handleEbayDisconnect s app).1 = false ∧
      handleEbayDisconnect (handleEbayDisconnect s app).1
          (handleEbayDisconnect s app).2 = handleEbayDisconnect s app ∧
      isConnected (handleEbayDisconnect (handleEbayDisconnect s app).1
          (handleEbayDisconnect s app).2).1 = false :=
  ⟨rfl, rfl, rfl⟩

/-- Claim C1, evaluated at a failing input: with the session nonce set to
expected by beginAuthorization, a callback carrying the valid code c123 but
the non-matching state value evil behaves exactly as a callback carrying
the matching state — handleEbayCallback never reads the state parameter —
and it completes the exchange: the app becomes connected and the Token
Store is overwritten with demoToken instead of failing with InvalidState
and staying unchanged. -/
theorem c1_state_never_checked :
    handleEbayCallback demoMarket [("code", "c123"), ("state", "evil")]
        (beginAuthorization emptySession "expected").2 freshApp =
      handleEbayCallback demoMarket [("code", "c123"), ("state", "expected")]
        (beginAuthorization emptySession "expected").2 freshApp ∧
    (handleEbayCallback demoMarket [("code", "c123"), ("state", "evil")]
        (beginAuthorization emptySession "expected").2 freshApp).2.isEbayConnected = true ∧
    (handleEbayCallback demoMarket [("code", "c123"), ("state", "evil")]
        (beginAuthorization emptySession "expected").2 freshApp).1.tokenStore = some demoToken ∧
    (beginAuthorization emptySession "expected").2.nonce = some "expected" ∧
    ("evil" : String) ≠ "expected" := by
  decide

/-- Claim C2: whenever publish reaches the transparent refresh (connected
session, in-bounds images, expired access token) and the refresh fails, the
whole publish fails with NotConnected, the Token Store is cleared, and
isConnected on the resulting session is false. -/
theorem c2_refresh_failure_clears (m : Marketplace) (now : Nat)
    (listing : EbayListing) (images : List ImageAsset) (s : EbaySession)
    (ts : TokenSet) (hstore : s.tokenStore = some ts)
    (hvalid : validImages images = true) (hexp : ts.expiresAt ≤ now)
    (hrefresh : m.refreshWith ts.refreshToken = none) :
    (postListingToEbay m now listing images s).1 = .error .NotConnected ∧
      (postListingToEbay m now listing images s).2.1.tokenStore = none ∧
      isConnected (postListingToEbay m now listing images s).2.1 = false := by
  simp [postListingToEbay, hstore, hvalid, hexp, hrefresh, isConnected]

/-- Witness for C2: publishing one valid image on a connected session whose
token expired at 1000, at time 2000, against a marketplace that revokes
every refresh token, fails with NotConnected and leaves a cleared,
disconnected Token Store. -/
theorem c2_refresh_failure_clears_witness :
    (postListingToEbay deadMarket 2000 demoListing [demoImage] connectedSession).1 =
        .error .NotConnected ∧
      (postListingToEbay deadMarket 2000 demoListing [demoImage] connectedSession).2.1.tokenStore = none ∧
      isConnected (postListingToEbay deadMarket 2000 demoListing [demoImage] connectedSession).2.1 = false :=
  c2_refresh_failure_clears deadMarket 2000 demoListing [demoImage]
    connectedSession demoToken rfl (by decide) (by decide) rfl

/-- Claim C3: an authorization code succeeds at most once — a first
completeAuthorization call with a fresh code accepted by the marketplace
and the state matching the outstanding nonce succeeds and stores the
TokenSet, and a repeated call with the same code (and the same session
nonce) fails with ExchangeFailed. -/
theorem c3_code_single_use (m : Marketplace) (s : EbaySession)
    (code nonce0 : String) (ts : TokenSet) (hnonce : s.nonce = some nonce0)
    (hfresh : code ∉ s.usedCodes) (hx : m.exchangeCode code = some ts) :
    (completeAuthorization m code nonce0 s).1 = .ok ts ∧
      (completeAuthorization m code nonce0 s).2.tokenStore = some ts ∧
      (completeAuthorization m code nonce0
          (completeAuthorization m code nonce0 s).2).1 = .error .ExchangeFailed := by
  have h1 : completeAuthorization m code nonce0 s =
      (.ok ts, { s with tokenStore := some ts, usedCodes := code :: s.usedCodes }) := by
    simp [completeAuthorization, hnonce, hfresh, hx]
  rw [h1]
  refine ⟨rfl, rfl, ?_⟩
  simp [completeAuthorization, hnonce]

/-- Witness for C3: after beginAuthorization issues the nonce n1, the first
exchange of c123 on demoMarket succeeds and stores demoToken, and the
repeated exchange of c123 fails with ExchangeFailed. -/
theorem c3_code_single_use_witness :
    (completeAuthorization demoMarket "c123" "n1"
        (beginAuthorization emptySession "n1").2).1 = .ok demoToken ∧
      (completeAuthorization demoMarket "c123" "n1"
        (beginAuthorization emptySession "n1").2).2.tokenStore = some demoToken ∧
      (completeAuthorization demoMarket "c123" "n1"
        (completeAuthorization demoMarket "c123" "n1"
          (beginAuthorization emptySession "n1").2).2).1 = .error .ExchangeFailed :=
  c3_code_single_use demoMarket (beginAuthorization emptySession "n1").2
    "c123" "n1" demoToken rfl (by decide) rfl

/-- Claim C4: on a connected session, publish with an empty image sequence
fails with InvalidInput, issues zero media upload attempts, and leaves the
session unchanged. -/
theorem c4_empty_images (m : Marketplace) (now : Nat) (listing : EbayListing)
    (s : EbaySession) (hconn : isConnected s = true) :
    postListingToEbay m now listing [] s = (.error .InvalidInput, s, 0) := by
  rcases hstore : s.tokenStore with _ | ts
  · rw [isConnected, hstore] at hconn
    simp at hconn
  · simp [postListingToEbay, hstore, validImages]

/-- Witness for C4: on the connected demo session, publishing with no
images fails with InvalidInput and zero upload attempts. -/
theorem c4_empty_images_witness :
    postListingToEbay demoMarket 0 demoListing [] connectedSession =
      (.error .InvalidInput, connectedSession, 0) :=
  c4_empty_images demoMarket 0 demoListing connectedSession rfl

/-- Counterexample to claim C7: when postListingToEbay resolves with
success false carrying the specific failureReason
`ListingRejected: required item specific Brand is missing`,
handlePostToEbay reports the generic message
`Posting failed for an unknown reason.` — the specific reason is replaced,
contradicting the claim that a failure is never replaced by a generic
message. -/
theorem c7_reason_swallowed :
    handlePostToEbay (.resolves rejectedResult) (some demoListing) initialPostStatus =
      { loading := false, error := some "Posting failed for an unknown reason.",
        success := none } ∧
    rejectedResult.failureReason =
      some "ListingRejected: required item specific Brand is missing" ∧
    (handlePostToEbay (.resolves rejectedResult) (some demoListing)
        initialPostStatus).error ≠ rejectedResult.failureReason := by
  decide

/-- Claim C7 as amended: every publish invocation resolves to exactly one
outcome — an error or a success message, never both and never neither; a
promise rejection with an Error is surfaced with that specific message; but
a result resolving with success false is reported with the fixed generic
message `Posting failed for an unknown reason.`, its failureReason
discarded. -/
theorem c7_single_outcome (outcome : PostOutcome) (listing : EbayListing)
    (st : PostStatus) :
    (((handlePostToEbay outcome (some listing) st).error.isSome = true ∧
        (handlePostToEbay outcome (some listing) st).success = none) ∨
      ((handlePostToEbay outcome (some listing) st).success.isSome = true ∧
        (handlePostToEbay outcome (some listing) st).error = none)) ∧
    (∀ msg, outcome = .rejectsWith msg →
      (handlePostToEbay outcome (some listing) st).error = some msg) ∧
    (∀ r, outcome = .resolves r → r.success = false →
      (handlePostToEbay outcome (some listing) st).error =
        some "Posting failed for an unknown reason.") := by
  rcases outcome with r | msg | _
  · by_cases hs : r.success
    · refine ⟨Or.inr ⟨by simp [handlePostToEbay, hs], by simp [handlePostToEbay, hs]⟩, ?_, ?_⟩
      · intro m hm
        simp at hm
      · intro r0 hr0 hfail
        simp at hr0
        rw [hr0] at hs
        rw [hs] at hfail
        simp at hfail
    · have hs0 : r.success = false := by simpa using hs
      refine ⟨Or.inl ⟨by simp [handlePostToEbay, hs0], by simp [handlePostToEbay, hs0]⟩, ?_, ?_⟩
      · intro m hm
        simp at hm
      · intro r0 hr0 hfail
        simp [handlePostToEbay, hs0]
  · refine ⟨Or.inl ⟨by simp [handlePostToEbay], by simp [handlePostToEbay]⟩, ?_, ?_⟩
    · intro m hm
      simp at hm
      rw [hm]
      simp [handlePostToEbay]
    · intro r0 hr0 hfail
      simp at hr0
  · refine ⟨Or.inl ⟨by simp [handlePostToEbay], by simp [handlePostToEbay]⟩, ?_, ?_⟩
    · intro m hm
      simp at hm
    · intro r0 hr0 hfail
      simp at hr0

/-- Witness for C7 as amended: a rejection carrying the message
NotConnected is surfaced with exactly that message. -/
theorem c7_single_outcome_witness :
    (handlePostToEbay (.rejectsWith "NotConnected") (some demoListing)
        initialPostStatus).error = some "NotConnected" :=
  (c7_single_outcome (.rejectsWith "NotConnected") demoListing
      initialPostStatus).2.1 "NotConnected" rfl

end AiVision
